import Mathlib

/-!
# FedMCP command-line tool: create, sign, verify

A shallow embedding of `cli/cmd/fedmcp/main.go`.  Each `RunE` closure becomes a
function from the values it captures (flag variables, positional arguments) to an
`Outcome`: the ordered list of library calls it made, what it wrote to standard
output, and how it ended.  Everything the file imports (the file system,
`encoding/json`, `google/uuid`, the `fedmcp` core package) is supplied by an `Env`.
-/

namespace FedMCP

/-! ## Data model -/

/-- A Go `error` value.  `wrap` is what `fmt.Errorf("<pfx>%w", inner)` builds. -/
inductive GoError where
  | mk (msg : String)
  | wrap (pfx : String) (inner : GoError)
  deriving DecidableEq, Repr

/-- The `Error()` text of a Go error. -/
def GoError.Error : GoError → String
  | .mk msg => msg
  | .wrap pfx inner => pfx ++ inner.Error

/-- A `uuid.UUID` value, identified with its canonical text form. -/
structure UUID where
  canonical : String
  deriving DecidableEq, Repr

mutual
/-- A JSON value as `encoding/json` sees it.  A number keeps its literal text. -/
inductive JsonValue where
  | null
  | bool (b : Bool)
  | number (lit : String)
  | string (s : String)
  | array (items : JsonList)
  | object (members : JsonMembers)
/-- The elements of a JSON array. -/
inductive JsonList where
  | nil
  | cons (head : JsonValue) (tail : JsonList)
/-- The members of a JSON object, in textual order. -/
inductive JsonMembers where
  | nil
  | cons (key : String) (value : JsonValue) (tail : JsonMembers)
end

/-- The Go value of `var jsonBody map[string]interface{}` (line 56): `none` is the nil
map, `some m` a map holding the decoded members. -/
abbrev Body := Option JsonMembers

/-- Modelled from the spec: the `Artifact` struct of the `fedmcp` core package is not
among the sources; its fields are those of spec §3 and §6.  `main.go` itself only
touches `ID` (line 116) and `Version` (line 69). -/
structure Artifact where
  id : UUID
  type : String
  workspaceId : UUID
  version : Int
  body : Body
  createdAt : String

/-- The value returned by `fedmcp.NewLocalSigner()`; the core package owns its content. -/
structure Signer where
  handle : Nat
  deriving DecidableEq, Repr

/-- The libraries `main.go` calls.  One `Env` fixes what each call returns in one run. -/
structure Env where
  /-- The call `ioutil.ReadFile(path)`. -/
  readFile : String → Except GoError String
  /-- The JSON grammar check and tokenisation `json.Unmarshal` starts with. -/
  parseJSON : String → Except GoError JsonValue
  /-- Whether `strconv.ParseFloat(lit, 64)` accepts a number literal. -/
  float64Accepts : String → Bool
  /-- The call `uuid.Parse(s)`. -/
  uuidParse : String → Except GoError UUID
  /-- The call `fedmcp.NewArtifact(type, ws, body)`; it returns one value, no error. -/
  newArtifact : String → UUID → Body → Artifact
  /-- The call `json.MarshalIndent(artifact, "", "  ")`. -/
  marshalIndent : Artifact → Except GoError String
  /-- The call `json.Unmarshal(data, &artifact)` for a `fedmcp.Artifact`. -/
  unmarshalArtifact : String → Except GoError Artifact
  /-- The call `fedmcp.NewLocalSigner()`. -/
  newLocalSigner : Except GoError Signer
  /-- The call `signer.Sign(&artifact)`: the artifact as the call leaves it, and
  the token or the error. -/
  sign : Signer → Artifact → Artifact × Except GoError String
  /-- The call `signer.GetKeyID()`. -/
  getKeyID : Signer → String

/-- A library call made by a command, with its arguments. -/
inductive Call where
  | ReadFile (path : String)
  | UnmarshalBody (data : String)
  | UnmarshalArtifact (data : String)
  | UuidParse (s : String)
  | NewArtifact (type : String) (ws : UUID) (body : Body)
  | MarshalIndent (artifact : Artifact)
  | NewLocalSigner
  | Sign (artifact : Artifact)
  | GetKeyID

/-- How a `RunE` closure ended: it returned (`nil` or an error) or it panicked. -/
inductive Status where
  | returned (err : Option GoError)
  | panicked (msg : String)
  deriving DecidableEq, Repr

/-- What running a command did: its library calls in order, its standard output, its end.
Standard error, where `main` and cobra report a returned error, is left out. -/
structure Outcome where
  calls : List Call
  stdout : String
  status : Status

/-! ## `json.Unmarshal` into `map[string]interface{}` -/

mutual
/-- The first number literal of a value that `float64` cannot hold, if any. -/
def JsonValue.badNumber (env : Env) : JsonValue → Option String
  | .null => none
  | .bool _ => none
  | .number lit => if env.float64Accepts lit then none else some lit
  | .string _ => none
  | .array items => items.badNumber env
  | .object members => members.badNumber env
/-- The first such literal among the elements of an array. -/
def JsonList.badNumber (env : Env) : JsonList → Option String
  | .nil => none
  | .cons head tail =>
    match head.badNumber env with
    | some lit => some lit
    | none => tail.badNumber env
/-- The first such literal among the members of an object. -/
def JsonMembers.badNumber (env : Env) : JsonMembers → Option String
  | .nil => none
  | .cons _ value tail =>
    match value.badNumber env with
    | some lit => some lit
    | none => tail.badNumber env
end

/-- The error `json.Unmarshal` reports when a JSON value of the named kind meets a Go
target of type `map[string]interface{}`. -/
def mapTypeError (kind : String) : GoError :=
  .mk ("json: cannot unmarshal " ++ kind ++ " into Go value of type map[string]interface \x7b\x7d")

/-- The call `json.Unmarshal(data, &jsonBody)` of lines 56-57.  Text that is not JSON is
a syntax error; `null` leaves the map nil; an object fills the map, every number going
through `strconv.ParseFloat`; any other value does not fit the map type. -/
def unmarshalBody (env : Env) (data : String) : Except GoError Body :=
  match env.parseJSON data with
  | .error err => .error err
  | .ok .null => .ok none
  | .ok (.object members) =>
    match members.badNumber env with
    | some lit =>
      .error (.mk ("json: cannot unmarshal number " ++ lit ++ " into Go value of type float64"))
    | none => .ok (some members)
  | .ok (.array _) => .error (mapTypeError "array")
  | .ok (.string _) => .error (mapTypeError "string")
  | .ok (.number _) => .error (mapTypeError "number")
  | .ok (.bool _) => .error (mapTypeError "bool")

/-! ## The commands -/

/-- The bytes kept by `output, _ := json.MarshalIndent(...)` (line 72): the error is
dropped and the bytes are then nil. -/
def marshalOutput (env : Env) (artifact : Artifact) : String :=
  match env.marshalIndent artifact with
  | .ok text => text
  | .error _ => ""

/-- The `RunE` closure of `createCmd` (lines 49-76).  `workspaceID` is the package
variable, `artifactType` and `version` the two flag variables it captures. -/
def createRunE (env : Env) (workspaceID artifactType : String) (version : Int)
    (args : List String) : Outcome :=
  match args with
  | [] => ⟨[], "", .panicked "index out of range [0] with length 0"⟩
  | path :: _ =>
    match env.readFile path with
    | .error err => ⟨[.ReadFile path], "", .returned (some err)⟩
    | .ok data =>
      match unmarshalBody env data with
      | .error err => ⟨[.ReadFile path, .UnmarshalBody data], "", .returned (some err)⟩
      | .ok jsonBody =>
        match env.uuidParse workspaceID with
        | .error err =>
          ⟨[.ReadFile path, .UnmarshalBody data, .UuidParse workspaceID], "",
            .returned (some (.wrap "invalid workspace ID: " err))⟩
        | .ok wsID =>
          let artifact := env.newArtifact artifactType wsID jsonBody
          let artifact := { artifact with version := version }
          let output := marshalOutput env artifact
          ⟨[.ReadFile path, .UnmarshalBody data, .UuidParse workspaceID,
              .NewArtifact artifactType wsID jsonBody, .MarshalIndent artifact],
            output ++ "\n", .returned none⟩

/-- The `RunE` closure of `signCmd` (lines 91-121). -/
def signRunE (env : Env) (args : List String) : Outcome :=
  match args with
  | [] => ⟨[], "", .panicked "index out of range [0] with length 0"⟩
  | path :: _ =>
    match env.readFile path with
    | .error err => ⟨[.ReadFile path], "", .returned (some err)⟩
    | .ok data =>
      match env.unmarshalArtifact data with
      | .error err => ⟨[.ReadFile path, .UnmarshalArtifact data], "", .returned (some err)⟩
      | .ok artifact =>
        match env.newLocalSigner with
        | .error err =>
          ⟨[.ReadFile path, .UnmarshalArtifact data, .NewLocalSigner], "",
            .returned (some err)⟩
        | .ok signer =>
          match env.sign signer artifact with
          | (_, .error err) =>
            ⟨[.ReadFile path, .UnmarshalArtifact data, .NewLocalSigner, .Sign artifact], "",
              .returned (some err)⟩
          | (signed, .ok jws) =>
            ⟨[.ReadFile path, .UnmarshalArtifact data, .NewLocalSigner, .Sign artifact,
                .GetKeyID],
              "Artifact ID: " ++ signed.id.canonical ++ "\n" ++
                ("JWS: " ++ jws ++ "\n") ++
                ("Key ID: " ++ env.getKeyID signer ++ "\n"),
              .returned none⟩

/-- The `RunE` closure of `verifyCmd` (lines 130-134): it reads neither argument. -/
def verifyRunE (_env : Env) (_args : List String) : Outcome :=
  ⟨[], "Verification not yet implemented\n", .returned none⟩

/-- The `RunE` closure of `pushCmd` (lines 143-147). -/
def pushRunE (_env : Env) (serverURL : String) (_args : List String) : Outcome :=
  ⟨[], "Pushing to " ++ serverURL ++ "\n", .returned none⟩

/-! ## The command line and `main` -/

/-- The subcommand chosen on the command line, with its own flags.  A flag that was
not given is `none`. -/
inductive Command where
  | create (typeFlag : Option String) (versionFlag : Option Int)
  | sign
  | verify
  | push

/-- A parsed command line: the persistent flags, the subcommand, the positional
arguments. -/
structure Invocation where
  workspace : Option String
  server : Option String
  cmd : Command
  args : List String

/-- The error of `cobra.ExactArgs(n)` when the number of arguments is not `n`. -/
def exactArgsError (n got : Nat) : GoError :=
  .mk ("accepts " ++ toString n ++ " arg(s), received " ++ toString got)

/-- The error cobra returns when a flag marked required was not given. -/
def requiredFlagError (name : String) : GoError :=
  .mk ("required flag(s) \"" ++ name ++ "\" not set")

/-- The call `rootCmd.Execute()`: flag defaults (lines 26-27, 79-80), the `Args`
validators (lines 48, 90, 129, 142), the required `type` flag (line 81), then `RunE`. -/
def execute (env : Env) (inv : Invocation) : Outcome :=
  let workspaceID := inv.workspace.getD ""
  let serverURL := inv.server.getD "http://localhost:8090"
  match inv.cmd with
  | .create typeFlag versionFlag =>
    if inv.args.length ≠ 1 then
      ⟨[], "", .returned (some (exactArgsError 1 inv.args.length))⟩
    else
      match typeFlag with
      | none => ⟨[], "", .returned (some (requiredFlagError "type"))⟩
      | some artifactType =>
        createRunE env workspaceID artifactType (versionFlag.getD 1) inv.args
  | .sign =>
    if inv.args.length ≠ 1 then
      ⟨[], "", .returned (some (exactArgsError 1 inv.args.length))⟩
    else signRunE env inv.args
  | .verify =>
    if inv.args.length ≠ 2 then
      ⟨[], "", .returned (some (exactArgsError 2 inv.args.length))⟩
    else verifyRunE env inv.args
  | .push =>
    if inv.args.length ≠ 1 then
      ⟨[], "", .returned (some (exactArgsError 1 inv.args.length))⟩
    else pushRunE env serverURL inv.args

/-- The exit code of the process (lines 35-38): 1 when `Execute` returned an error,
0 when it returned nil; a Go program that panics exits with 2. -/
def exitCode (o : Outcome) : Nat :=
  match o.status with
  | .returned none => 0
  | .returned (some _) => 1
  | .panicked _ => 2

/-- The function `main` (lines 19-39): what the process did and its exit code. -/
def main (env : Env) (inv : Invocation) : Outcome × Nat :=
  let o := execute env inv
  (o, exitCode o)

/-! ## Observations on an outcome -/

/-- Whether a call is `fedmcp.NewArtifact`. -/
def Call.isNewArtifact : Call → Bool
  | .NewArtifact _ _ _ => true
  | _ => false

/-- Whether a call is `uuid.Parse`. -/
def Call.isUuidParse : Call → Bool
  | .UuidParse _ => true
  | _ => false

/-- Whether a call is cryptographic work: obtaining the signer, signing, or reading
the key identifier. -/
def Call.isCrypto : Call → Bool
  | .NewLocalSigner => true
  | .Sign _ => true
  | .GetKeyID => true
  | _ => false

/-- The artifacts a command emitted: those it serialised for standard output
(lines 72-73), in order. -/
def emitted (o : Outcome) : List Artifact :=
  o.calls.filterMap fun
    | .MarshalIndent artifact => some artifact
    | _ => none

/-- Whether an error is the one line 64 builds, `invalid workspace ID: ...`. -/
def GoError.isInvalidWorkspaceID : GoError → Bool
  | .wrap pfx _ => pfx == "invalid workspace ID: "
  | .mk _ => false

/-- Whether a command ended by returning the invalid-workspace-ID error. -/
def Status.isInvalidWorkspaceID : Status → Bool
  | .returned (some err) => err.isInvalidWorkspaceID
  | _ => false

/-- Whether a command ended by returning nil. -/
def Status.isSuccess : Status → Bool
  | .returned none => true
  | _ => false

/-- The kind of a JSON value. -/
inductive JsonKind where
  | null | bool | number | string | array | object
  deriving DecidableEq, Repr

/-- The kind of the top-level value of a JSON text. -/
def JsonValue.kind : JsonValue → JsonKind
  | .null => .null
  | .bool _ => .bool
  | .number _ => .number
  | .string _ => .string
  | .array _ => .array
  | .object _ => .object

/-- Whether a file content is not valid JSON, or is JSON whose top-level value is an
array, a string, a number or a boolean. -/
def notAnObject (env : Env) (data : String) : Bool :=
  match env.parseJSON data with
  | .error _ => true
  | .ok value =>
    match value.kind with
    | .array => true
    | .string => true
    | .number => true
    | .bool => true
    | .object => false
    | .null => false

/-- Whether `needle` occurs in `hay` as a contiguous run of characters. -/
def occursIn (needle : List Char) : List Char → Bool
  | [] => needle.isEmpty
  | c :: rest => needle.isPrefixOf (c :: rest) || occursIn needle rest

/-- Modelled from the spec: the verdicts of the Verifier (spec §4.4); no verdict type
or verifier exists in the sources. -/
inductive Verdict where
  | Valid
  | SignatureMismatch
  | KeyMismatch
  | UnsupportedAlgorithm
  | MalformedToken
  deriving DecidableEq, Repr

/-- Modelled from the spec: the text of each verdict as spec §4.4 writes it. -/
def Verdict.label : Verdict → String
  | .Valid => "Valid"
  | .SignatureMismatch => "Invalid: SignatureMismatch"
  | .KeyMismatch => "Invalid: KeyMismatch"
  | .UnsupportedAlgorithm => "Invalid: UnsupportedAlgorithm"
  | .MalformedToken => "Invalid: MalformedToken"

/-- Modelled from the spec: a command reports a verdict when it prints the verdict's
text (spec §6: the verify command is "expected to print a pass/fail verdict"). -/
def reports (o : Outcome) (v : Verdict) : Bool :=
  occursIn v.label.toList o.stdout.toList

/-- Modelled from the spec: a command reports an Invalid verdict when it prints the
word `Invalid`, with or without a reason (spec §4.4 allows the collapsed form). -/
def reportsInvalid (o : Outcome) : Bool :=
  occursIn "Invalid".toList o.stdout.toList

/-! ## A concrete environment -/

/-- The workspace identifier of the scenario in spec §8. -/
def demoWorkspace : String := "3fa85f64-5717-4562-b3fc-2c963f66afa6"

/-- The body of the scenario in spec §8. -/
def demoBody : JsonMembers := .cons "rule" (.string "deny-all") .nil

/-- The same body with its last byte changed. -/
def demoBodyTampered : JsonMembers := .cons "rule" (.string "deny-alm") .nil

/-- An artifact of the scenario, as stored in `artifact.json`. -/
def demoArtifact : Artifact :=
  ⟨⟨"7c9e6679-7425-40de-944b-e07fc1f90ae7"⟩, "policy", ⟨demoWorkspace⟩, 1, some demoBody,
    "2024-01-01T00:00:00Z"⟩

/-- The stored artifact with one byte of its body changed, as in `tampered.json`. -/
def demoArtifactTampered : Artifact := { demoArtifact with body := some demoBodyTampered }

/-- A small file system. -/
def demoReadFile (path : String) : Except GoError String :=
  if path = "body.json" then .ok "\x7b\"rule\":\"deny-all\"\x7d"
  else if path = "big.json" then .ok "\x7b\"big\":1e999\x7d"
  else if path = "list.json" then .ok "[1,2]"
  else if path = "artifact.json" then .ok "artifact A"
  else if path = "tampered.json" then .ok "artifact A, one body byte changed"
  else if path = "broken.json" then .ok "\x7b\"id\":"
  else .error (.mk ("open " ++ path ++ ": no such file or directory"))

/-- The JSON reading of the contents of the small file system. -/
def demoParseJSON (data : String) : Except GoError JsonValue :=
  if data = "\x7b\"rule\":\"deny-all\"\x7d" then .ok (.object demoBody)
  else if data = "\x7b\"big\":1e999\x7d" then .ok (.object (.cons "big" (.number "1e999") .nil))
  else if data = "[1,2]" then .ok (.array (.cons (.number "1") (.cons (.number "2") .nil)))
  else .error (.mk "unexpected end of JSON input")

/-- A number literal too large for `float64` is refused. -/
def demoFloat64Accepts (lit : String) : Bool := !(lit == "1e999")

/-- Whether a character is a hexadecimal digit. -/
def isHex (c : Char) : Bool :=
  c.isDigit || (decide ('a' ≤ c) && decide (c ≤ 'f')) || (decide ('A' ≤ c) && decide (c ≤ 'F'))

/-- Whether 36 characters have the form `xxxxxxxx-xxxx-xxxx-xxxx-xxxxxxxxxxxx`. -/
def hasUuidForm (cs : List Char) : Bool :=
  (List.range 36).all fun i =>
    if i = 8 ∨ i = 13 ∨ i = 18 ∨ i = 23 then cs.getD i ' ' == '-' else isHex (cs.getD i ' ')

/-- A UUID parser for the 36-character form. -/
def demoUuidParse (s : String) : Except GoError UUID :=
  if s.toList.length ≠ 36 then
    .error (.mk ("invalid UUID length: " ++ toString s.toList.length))
  else if hasUuidForm s.toList then .ok ⟨s⟩
  else .error (.mk "invalid UUID format")

/-- An artifact constructor with a fixed identifier and clock. -/
def demoNewArtifact (type : String) (ws : UUID) (body : Body) : Artifact :=
  ⟨⟨"7c9e6679-7425-40de-944b-e07fc1f90ae7"⟩, type, ws, 1, body, "2024-01-01T00:00:00Z"⟩

/-- A serialiser that shows the scalar fields of an artifact. -/
def demoMarshalIndent (a : Artifact) : Except GoError String :=
  .ok ("id=" ++ a.id.canonical ++ " type=" ++ a.type ++ " workspaceId=" ++
    a.workspaceId.canonical ++ " version=" ++ toString a.version)

/-- The artifact decoder of the small file system. -/
def demoUnmarshalArtifact (data : String) : Except GoError Artifact :=
  if data = "artifact A" then .ok demoArtifact
  else if data = "artifact A, one body byte changed" then .ok demoArtifactTampered
  else .error (.mk "unexpected end of JSON input")

/-- The token the demo signer issues. -/
def demoToken : String := "eyJhbGciOiJFUzI1NiJ9.e30.c2ln"

/-- An environment in which every library call succeeds on well-formed input. -/
def demoEnv : Env where
  readFile := demoReadFile
  parseJSON := demoParseJSON
  float64Accepts := demoFloat64Accepts
  uuidParse := demoUuidParse
  newArtifact := demoNewArtifact
  marshalIndent := demoMarshalIndent
  unmarshalArtifact := demoUnmarshalArtifact
  newLocalSigner := .ok ⟨1⟩
  sign := fun _ a => (a, .ok demoToken)
  getKeyID := fun _ => "key-1"

/-- The demo environment with no key material to be had. -/
def noKeyEnv : Env := { demoEnv with newLocalSigner := .error (.mk "signing unavailable") }

/-- The demo environment with a signer whose `Sign` fails. -/
def badSignEnv : Env :=
  { demoEnv with sign := fun _ a => (a, .error (.mk "signing failed")) }

end FedMCP

namespace FedMCP

/-! ## Shared lemmas -/

theorem verify_outcome (env : Env) (ws server : Option String) (path token : String) :
    execute env ⟨ws, server, .verify, [path, token]⟩
      = ⟨[], "Verification not yet implemented\n", .returned none⟩ := by
  simp [execute, verifyRunE]

theorem create_outcome_ok (env : Env) (ws server : Option String) (ty : String)
    (v : Option Int) (path data : String) (body : Body) (wsID : UUID)
    (hread : env.readFile path = .ok data) (hbody : unmarshalBody env data = .ok body)
    (hws : env.uuidParse (ws.getD "") = .ok wsID) :
    execute env ⟨ws, server, .create (some ty) v, [path]⟩
      = ⟨[.ReadFile path, .UnmarshalBody data, .UuidParse (ws.getD ""),
          .NewArtifact ty wsID body,
          .MarshalIndent { env.newArtifact ty wsID body with version := v.getD 1 }],
        marshalOutput env { env.newArtifact ty wsID body with version := v.getD 1 } ++ "\n",
        .returned none⟩ := by
  simp [execute, createRunE, hread, hbody, hws]

/-! ## The verify command -/

/-- C1, refuted as stated: in the demo environment the sign command succeeds on
`artifact.json` and prints the token `demoToken`, and the verify command run on the
same file with that token does not report the verdict Valid. -/
theorem sign_then_verify_not_valid :
    (execute demoEnv ⟨none, none, .sign, ["artifact.json"]⟩).status = .returned none
    ∧ (execute demoEnv ⟨none, none, .sign, ["artifact.json"]⟩).stdout
        = "Artifact ID: 7c9e6679-7425-40de-944b-e07fc1f90ae7\n" ++
          ("JWS: " ++ demoToken ++ "\n") ++ "Key ID: key-1\n"
    ∧ reports (execute demoEnv ⟨none, none, .verify, ["artifact.json", demoToken]⟩) .Valid
        = false := by
  decide

/-- C1, amended: for every artifact file and every token (the one sign produced
included), the verify command makes no library call, prints the single line
`Verification not yet implemented`, returns nil, and reports no verdict at all. -/
theorem verify_reports_no_verdict (env : Env) (ws server : Option String)
    (path token : String) :
    (execute env ⟨ws, server, .verify, [path, token]⟩).calls = []
    ∧ (execute env ⟨ws, server, .verify, [path, token]⟩).stdout
        = "Verification not yet implemented\n"
    ∧ (execute env ⟨ws, server, .verify, [path, token]⟩).status = .returned none
    ∧ ∀ v : Verdict, reports (execute env ⟨ws, server, .verify, [path, token]⟩) v = false := by
  rw [verify_outcome]
  refine ⟨rfl, rfl, rfl, ?_⟩
  intro v
  cases v <;> decide

/-- C2, refuted as stated: `tampered.json` holds the artifact of `artifact.json` with one
byte of its body changed; verifying it against the token issued for the original reports
no Invalid verdict and the process exits with code 0. -/
theorem verify_tampered_not_invalid :
    demoEnv.readFile "tampered.json" = .ok "artifact A, one body byte changed"
    ∧ demoEnv.unmarshalArtifact "artifact A, one body byte changed"
        = .ok { demoArtifact with body := some demoBodyTampered }
    ∧ (execute demoEnv ⟨none, none, .sign, ["artifact.json"]⟩).stdout
        = "Artifact ID: 7c9e6679-7425-40de-944b-e07fc1f90ae7\n" ++
          ("JWS: " ++ demoToken ++ "\n") ++ "Key ID: key-1\n"
    ∧ reportsInvalid (execute demoEnv ⟨none, none, .verify, ["tampered.json", demoToken]⟩)
        = false
    ∧ (main demoEnv ⟨none, none, .verify, ["tampered.json", demoToken]⟩).2 = 0 := by
  refine ⟨rfl, rfl, ?_, ?_, ?_⟩ <;> decide

/-- C2, amended: the verify command never looks at the artifact.  For any two artifact
files and any token its outcome on the one equals its outcome on the other, it prints
`Verification not yet implemented`, reports no Invalid verdict, and the process exits
with code 0. -/
theorem verify_ignores_artifact (env : Env) (ws server : Option String)
    (path path' token : String) :
    execute env ⟨ws, server, .verify, [path', token]⟩
        = execute env ⟨ws, server, .verify, [path, token]⟩
    ∧ (execute env ⟨ws, server, .verify, [path', token]⟩).stdout
        = "Verification not yet implemented\n"
    ∧ reportsInvalid (execute env ⟨ws, server, .verify, [path', token]⟩) = false
    ∧ (main env ⟨ws, server, .verify, [path', token]⟩).2 = 0 := by
  unfold main
  rw [verify_outcome env ws server path token, verify_outcome env ws server path' token]
  refine ⟨rfl, rfl, ?_, ?_⟩ <;> decide

/-- C3, refuted as stated: given the token string `not a token`, the verify command
reports no Invalid verdict (MalformedToken or other) and the process exits with code 0. -/
theorem verify_malformed_token_exit_zero :
    reports (execute demoEnv ⟨none, none, .verify, ["artifact.json", "not a token"]⟩)
        .MalformedToken = false
    ∧ reportsInvalid (execute demoEnv ⟨none, none, .verify, ["artifact.json", "not a token"]⟩)
        = false
    ∧ (main demoEnv ⟨none, none, .verify, ["artifact.json", "not a token"]⟩).2 = 0 := by
  decide

/-- C3, amended: for every token string, parseable or not, the verify command does not
panic: it returns nil, so the process exits with code 0, and its outcome is the one it
has for any other token; it prints `Verification not yet implemented` and no Invalid
verdict, MalformedToken or other. -/
theorem verify_ignores_token (env : Env) (ws server : Option String)
    (path token token' : String) :
    (∀ msg, (execute env ⟨ws, server, .verify, [path, token]⟩).status ≠ .panicked msg)
    ∧ (execute env ⟨ws, server, .verify, [path, token]⟩).status = .returned none
    ∧ exitCode (execute env ⟨ws, server, .verify, [path, token]⟩) = 0
    ∧ execute env ⟨ws, server, .verify, [path, token]⟩
        = execute env ⟨ws, server, .verify, [path, token']⟩
    ∧ (execute env ⟨ws, server, .verify, [path, token]⟩).stdout
        = "Verification not yet implemented\n"
    ∧ reports (execute env ⟨ws, server, .verify, [path, token]⟩) .MalformedToken = false
    ∧ reportsInvalid (execute env ⟨ws, server, .verify, [path, token]⟩) = false := by
  rw [verify_outcome env ws server path token, verify_outcome env ws server path token']
  refine ⟨?_, rfl, rfl, rfl, rfl, ?_, ?_⟩
  · intro msg h
    cases h
  · decide
  · decide

/-! ## The create command -/

theorem create_args_singleton (args : List String) (h : ¬ args.length ≠ 1) :
    ∃ path, args = [path] := by
  match args, h with
  | [path], _ => exact ⟨path, rfl⟩
  | [], h => simp at h
  | _ :: _ :: _, h => simp at h

/-- C4, refuted as stated: with the `--workspace` flag absent the workspace string is
empty and does not parse, yet when the input file cannot be read the create command
fails with the read error, which is not the invalid-workspace-ID error. -/
theorem create_unreadable_file_bad_workspace :
    demoEnv.uuidParse ((none : Option String).getD "") = .error (.mk "invalid UUID length: 0")
    ∧ (execute demoEnv ⟨none, none, .create (some "policy") none, ["missing.json"]⟩).status
        = .returned (some (.mk "open missing.json: no such file or directory"))
    ∧ (execute demoEnv
        ⟨none, none, .create (some "policy") none, ["missing.json"]⟩).status.isInvalidWorkspaceID
        = false := by
  refine ⟨rfl, ?_, ?_⟩ <;> decide

/-- C4, amended: for every workspace string that `uuid.Parse` rejects (the empty string
of an absent `--workspace` flag included when it is rejected), the create command fails
(exit code 1), never calls `NewArtifact`, emits no artifact and prints nothing; and
whenever the input file was read and decoded, the error is `invalid workspace ID: `
wrapping the parse error. -/
theorem create_rejects_invalid_workspace (env : Env) (ws server : Option String)
    (t : Option String) (v : Option Int) (args : List String) (e : GoError)
    (hws : env.uuidParse (ws.getD "") = .error e) :
    exitCode (execute env ⟨ws, server, .create t v, args⟩) = 1
    ∧ (execute env ⟨ws, server, .create t v, args⟩).stdout = ""
    ∧ (execute env ⟨ws, server, .create t v, args⟩).calls.any Call.isNewArtifact = false
    ∧ emitted (execute env ⟨ws, server, .create t v, args⟩) = []
    ∧ ∀ path ty data body, args = [path] → t = some ty → env.readFile path = .ok data →
        unmarshalBody env data = .ok body →
        (execute env ⟨ws, server, .create t v, args⟩).status
          = .returned (some (.wrap "invalid workspace ID: " e)) := by
  by_cases hlen : args.length ≠ 1
  · refine ⟨?_, ?_, ?_, ?_, ?_⟩
    · simp [execute, hlen, exitCode]
    · simp [execute, hlen]
    · simp [execute, hlen]
    · simp [execute, hlen, emitted]
    · intro path ty data body hargs
      simp [hargs] at hlen
  · obtain ⟨path, rfl⟩ := create_args_singleton args hlen
    cases t with
    | none =>
      refine ⟨?_, ?_, ?_, ?_, ?_⟩
      · simp [execute, exitCode]
      · simp [execute]
      · simp [execute]
      · simp [execute, emitted]
      · intro path ty data body _ ht
        cases ht
    | some ty =>
      cases hr : env.readFile path with
      | error err =>
        refine ⟨?_, ?_, ?_, ?_, ?_⟩
        · simp [execute, createRunE, hr, exitCode]
        · simp [execute, createRunE, hr]
        · simp [execute, createRunE, hr, Call.isNewArtifact]
        · simp [execute, createRunE, hr, emitted]
        · intro path' ty' data body hargs _ hread
          simp only [List.cons.injEq, and_true] at hargs
          subst hargs
          rw [hr] at hread
          cases hread
      | ok data =>
        cases hb : unmarshalBody env data with
        | error err =>
          refine ⟨?_, ?_, ?_, ?_, ?_⟩
          · simp [execute, createRunE, hr, hb, exitCode]
          · simp [execute, createRunE, hr, hb]
          · simp [execute, createRunE, hr, hb, Call.isNewArtifact]
          · simp [execute, createRunE, hr, hb, emitted]
          · intro path' ty' data' body hargs _ hread hbody
            simp only [List.cons.injEq, and_true] at hargs
            subst hargs
            rw [hr] at hread
            cases hread
            rw [hb] at hbody
            cases hbody
        | ok body =>
          refine ⟨?_, ?_, ?_, ?_, ?_⟩
          · simp [execute, createRunE, hr, hb, hws, exitCode]
          · simp [execute, createRunE, hr, hb, hws]
          · simp [execute, createRunE, hr, hb, hws, Call.isNewArtifact]
          · simp [execute, createRunE, hr, hb, hws, emitted]
          · intro path' ty' data' body' _ _ _ _
            simp [execute, createRunE, hr, hb, hws]

/-- C4, instance: in the demo environment, `create body.json --type policy` with no
`--workspace` flag fails with the wrapped parse error, builds and prints nothing. -/
theorem create_rejects_invalid_workspace_witness :
    demoEnv.uuidParse ((none : Option String).getD "") = .error (.mk "invalid UUID length: 0")
    ∧ exitCode (execute demoEnv ⟨none, none, .create (some "policy") none, ["body.json"]⟩) = 1
    ∧ (execute demoEnv ⟨none, none, .create (some "policy") none, ["body.json"]⟩).stdout = ""
    ∧ (execute demoEnv ⟨none, none, .create (some "policy") none, ["body.json"]⟩).status
        = .returned (some (.wrap "invalid workspace ID: " (.mk "invalid UUID length: 0"))) :=
  have h := create_rejects_invalid_workspace demoEnv none none (some "policy") none
    ["body.json"] (.mk "invalid UUID length: 0") rfl
  ⟨rfl, h.1, h.2.1,
    h.2.2.2.2 "body.json" "policy" "\x7b\"rule\":\"deny-all\"\x7d" (some demoBody)
      rfl rfl rfl rfl⟩

theorem create_status_type_independent (env : Env) (ws server : Option String)
    (ty ty' : String) (v : Option Int) (args : List String) :
    (execute env ⟨ws, server, .create (some ty) v, args⟩).status
      = (execute env ⟨ws, server, .create (some ty') v, args⟩).status := by
  by_cases hlen : args.length ≠ 1
  · simp [execute, hlen]
  · obtain ⟨path, rfl⟩ := create_args_singleton args hlen
    cases hr : env.readFile path with
    | error err => simp [execute, createRunE, hr]
    | ok data =>
      cases hb : unmarshalBody env data with
      | error err => simp [execute, createRunE, hr, hb]
      | ok body =>
        cases hw : env.uuidParse (ws.getD "") with
        | error err => simp [execute, createRunE, hr, hb, hw]
        | ok wsID => simp [execute, createRunE, hr, hb, hw]

/-- C5, refuted as stated: in the demo environment, `create body.json --type ""` with a
valid workspace returns nil, and prints an artifact whose type is the empty string. -/
theorem create_empty_type_succeeds :
    (execute demoEnv ⟨some demoWorkspace, none, .create (some "") none, ["body.json"]⟩).status
        = .returned none
    ∧ (execute demoEnv ⟨some demoWorkspace, none, .create (some "") none, ["body.json"]⟩).stdout
        = "id=7c9e6679-7425-40de-944b-e07fc1f90ae7 type= " ++
          "workspaceId=3fa85f64-5717-4562-b3fc-2c963f66afa6 version=1\n"
    ∧ (emitted (execute demoEnv
        ⟨some demoWorkspace, none, .create (some "") none, ["body.json"]⟩)).map (·.type)
        = [""] := by
  decide

/-- C5, amended: the create command has no check on the type value.  Given `--type ""`,
a readable file that decodes and a workspace that parses, it returns nil and prints the
artifact `NewArtifact` built from the empty type; whatever the other inputs, it ends as
it would for any other type value; only an absent `--type` flag is refused, with the
required-flag error and nothing printed. -/
theorem create_empty_type_not_rejected (env : Env) (ws server : Option String)
    (v : Option Int) (path data : String) (body : Body) (wsID : UUID)
    (hread : env.readFile path = .ok data) (hbody : unmarshalBody env data = .ok body)
    (hws : env.uuidParse (ws.getD "") = .ok wsID) :
    (execute env ⟨ws, server, .create (some "") v, [path]⟩).status = .returned none
    ∧ emitted (execute env ⟨ws, server, .create (some "") v, [path]⟩)
        = [{ env.newArtifact "" wsID body with version := v.getD 1 }]
    ∧ (execute env ⟨ws, server, .create (some "") v, [path]⟩).stdout
        = marshalOutput env { env.newArtifact "" wsID body with version := v.getD 1 } ++ "\n"
    ∧ (∀ (ty : String) (args : List String),
        (execute env ⟨ws, server, .create (some "") v, args⟩).status
          = (execute env ⟨ws, server, .create (some ty) v, args⟩).status)
    ∧ (execute env ⟨ws, server, .create none v, [path]⟩).status
        = .returned (some (requiredFlagError "type"))
    ∧ (execute env ⟨ws, server, .create none v, [path]⟩).stdout = "" := by
  rw [create_outcome_ok env ws server "" v path data body wsID hread hbody hws]
  refine ⟨rfl, ?_, rfl, ?_, ?_, ?_⟩
  · simp [emitted]
  · intro ty args
    exact create_status_type_independent env ws server "" ty v args
  · simp [execute]
  · simp [execute]

/-- C5, instance: the demo run with `--type ""`, `body.json` and the demo workspace. -/
theorem create_empty_type_not_rejected_witness :
    demoEnv.readFile "body.json" = .ok "\x7b\"rule\":\"deny-all\"\x7d"
    ∧ unmarshalBody demoEnv "\x7b\"rule\":\"deny-all\"\x7d" = .ok (some demoBody)
    ∧ demoEnv.uuidParse ((some demoWorkspace).getD "") = .ok ⟨demoWorkspace⟩
    ∧ (execute demoEnv
        ⟨some demoWorkspace, none, .create (some "") none, ["body.json"]⟩).status
        = .returned none :=
  ⟨rfl, rfl, rfl,
    (create_empty_type_not_rejected demoEnv (some demoWorkspace) none none "body.json"
      "\x7b\"rule\":\"deny-all\"\x7d" (some demoBody) ⟨demoWorkspace⟩ rfl rfl rfl).1⟩

/-- C6, refuted as stated: in the demo environment, `create body.json --type policy
--version 0` emits an artifact whose version is 0. -/
theorem create_version_zero_emitted :
    (execute demoEnv
        ⟨some demoWorkspace, none, .create (some "policy") (some 0), ["body.json"]⟩).status
        = .returned none
    ∧ (emitted (execute demoEnv
        ⟨some demoWorkspace, none, .create (some "policy") (some 0), ["body.json"]⟩)).map
          (·.version) = [0] := by
  decide

/-- C6, amended: every artifact emitted by the create command has the version given by
the override, and version 1 when there is no override; so its version is at least 1
exactly when no override was given or the override is itself at least 1. -/
theorem create_emitted_version (env : Env) (ws server : Option String)
    (t : Option String) (v : Option Int) (args : List String) (a : Artifact)
    (ha : a ∈ emitted (execute env ⟨ws, server, .create t v, args⟩)) :
    a.version = v.getD 1
    ∧ (1 ≤ a.version ↔ v = none ∨ ∃ n : Int, v = some n ∧ 1 ≤ n) := by
  have hver : a.version = v.getD 1 := by
    by_cases hlen : args.length ≠ 1
    · simp [execute, hlen, emitted] at ha
    · obtain ⟨path, rfl⟩ := create_args_singleton args hlen
      cases t with
      | none => simp [execute, emitted] at ha
      | some ty =>
        cases hr : env.readFile path with
        | error err => simp [execute, createRunE, hr, emitted] at ha
        | ok data =>
          cases hb : unmarshalBody env data with
          | error err => simp [execute, createRunE, hr, hb, emitted] at ha
          | ok body =>
            cases hw : env.uuidParse (ws.getD "") with
            | error err => simp [execute, createRunE, hr, hb, hw, emitted] at ha
            | ok wsID =>
              rw [create_outcome_ok env ws server ty v path data body wsID hr hb hw] at ha
              simp [emitted] at ha
              rw [ha]
  refine ⟨hver, ?_⟩
  rw [hver]
  cases v with
  | none => simp
  | some n => simp

/-- C6, instance: the artifact emitted by the demo run with `--version 0`. -/
theorem create_emitted_version_witness :
    { demoNewArtifact "policy" ⟨demoWorkspace⟩ (some demoBody) with version := 0 }
        ∈ emitted (execute demoEnv
          ⟨some demoWorkspace, none, .create (some "policy") (some 0), ["body.json"]⟩)
    ∧ ({ demoNewArtifact "policy" ⟨demoWorkspace⟩ (some demoBody) with
          version := 0 } : Artifact).version = (some (0 : Int)).getD 1 :=
  have hmem : { demoNewArtifact "policy" ⟨demoWorkspace⟩ (some demoBody) with version := 0 }
      ∈ emitted (execute demoEnv
        ⟨some demoWorkspace, none, .create (some "policy") (some 0), ["body.json"]⟩) :=
    List.mem_singleton.mpr rfl
  ⟨hmem, (create_emitted_version demoEnv (some demoWorkspace) none (some "policy") (some 0)
    ["body.json"] _ hmem).1⟩

/-- C7: whenever the create command succeeds, it built exactly one artifact, the one
`NewArtifact` returned for the supplied type, the parsed workspace and the decoded body,
with only its version replaced: by 1 when no override was given, by the override
otherwise (id, type, workspaceId, body and createdAt are those `NewArtifact` produced).
That artifact is the one handed to `json.MarshalIndent`, and standard output is exactly
the text `json.MarshalIndent` returned for it followed by a newline (a lone newline in
the case where `json.MarshalIndent` returned an error, which line 72 drops). -/
theorem create_emits_new_artifact (env : Env) (ws server : Option String)
    (t : Option String) (v : Option Int) (args : List String)
    (hok : (execute env ⟨ws, server, .create t v, args⟩).status = .returned none) :
    ∃ path ty data body wsID,
      args = [path] ∧ t = some ty ∧ env.readFile path = .ok data
      ∧ unmarshalBody env data = .ok body ∧ env.uuidParse (ws.getD "") = .ok wsID
      ∧ emitted (execute env ⟨ws, server, .create t v, args⟩)
          = [{ env.newArtifact ty wsID body with version := v.getD 1 }]
      ∧ (∀ text,
          env.marshalIndent { env.newArtifact ty wsID body with version := v.getD 1 }
            = .ok text →
          (execute env ⟨ws, server, .create t v, args⟩).stdout = text ++ "\n")
      ∧ (∀ err,
          env.marshalIndent { env.newArtifact ty wsID body with version := v.getD 1 }
            = .error err →
          (execute env ⟨ws, server, .create t v, args⟩).stdout = "\n")
      ∧ (execute env ⟨ws, server, .create t v, args⟩).calls
          = [.ReadFile path, .UnmarshalBody data, .UuidParse (ws.getD ""),
              .NewArtifact ty wsID body,
              .MarshalIndent { env.newArtifact ty wsID body with version := v.getD 1 }]
      ∧ (v = none →
          ∀ a ∈ emitted (execute env ⟨ws, server, .create t v, args⟩),
            a.version = 1 ∧ a.id = (env.newArtifact ty wsID body).id
            ∧ a.type = (env.newArtifact ty wsID body).type
            ∧ a.workspaceId = (env.newArtifact ty wsID body).workspaceId
            ∧ a.body = (env.newArtifact ty wsID body).body
            ∧ a.createdAt = (env.newArtifact ty wsID body).createdAt)
      ∧ (∀ n : Int, v = some n →
          ∀ a ∈ emitted (execute env ⟨ws, server, .create t v, args⟩),
            a.version = n ∧ a.id = (env.newArtifact ty wsID body).id
            ∧ a.type = (env.newArtifact ty wsID body).type
            ∧ a.workspaceId = (env.newArtifact ty wsID body).workspaceId
            ∧ a.body = (env.newArtifact ty wsID body).body
            ∧ a.createdAt = (env.newArtifact ty wsID body).createdAt) := by
  by_cases hlen : args.length ≠ 1
  · simp [execute, hlen] at hok
  · obtain ⟨path, rfl⟩ := create_args_singleton args hlen
    cases t with
    | none => simp [execute] at hok
    | some ty =>
      cases hr : env.readFile path with
      | error err => simp [execute, createRunE, hr] at hok
      | ok data =>
        cases hb : unmarshalBody env data with
        | error err => simp [execute, createRunE, hr, hb] at hok
        | ok body =>
          cases hw : env.uuidParse (ws.getD "") with
          | error err => simp [execute, createRunE, hr, hb, hw] at hok
          | ok wsID =>
            refine ⟨path, ty, data, body, wsID, rfl, rfl, hr, hb, rfl, ?_⟩
            rw [create_outcome_ok env ws server ty v path data body wsID hr hb hw]
            refine ⟨?_, ?_, ?_, rfl, ?_, ?_⟩
            · simp [emitted]
            · intro text htext
              simp only [marshalOutput, htext]
            · intro err herr
              simp only [marshalOutput, herr]
              rfl
            · intro hv a ha
              simp [emitted] at ha
              rw [ha, hv]
              exact ⟨rfl, rfl, rfl, rfl, rfl, rfl⟩
            · intro n hv a ha
              simp [emitted] at ha
              rw [ha, hv]
              exact ⟨rfl, rfl, rfl, rfl, rfl, rfl⟩

/-- C7, instance: the demo run of the scenario in spec §8.  Without a version override
the artifact built and printed has version 1; with `--version 7` it is the same
artifact with version 7.  In both runs the printed line is the serialiser's text. -/
theorem create_emits_new_artifact_witness :
    ((execute demoEnv
        ⟨some demoWorkspace, none, .create (some "policy") none, ["body.json"]⟩).status
        = .returned none
      ∧ emitted (execute demoEnv
          ⟨some demoWorkspace, none, .create (some "policy") none, ["body.json"]⟩)
          = [{ demoNewArtifact "policy" ⟨demoWorkspace⟩ (some demoBody) with version := 1 }]
      ∧ (execute demoEnv
          ⟨some demoWorkspace, none, .create (some "policy") none, ["body.json"]⟩).stdout
          = "id=7c9e6679-7425-40de-944b-e07fc1f90ae7 type=policy " ++
            "workspaceId=3fa85f64-5717-4562-b3fc-2c963f66afa6 version=1\n")
    ∧ ((execute demoEnv
        ⟨some demoWorkspace, none, .create (some "policy") (some 7), ["body.json"]⟩).status
        = .returned none
      ∧ emitted (execute demoEnv
          ⟨some demoWorkspace, none, .create (some "policy") (some 7), ["body.json"]⟩)
          = [{ demoNewArtifact "policy" ⟨demoWorkspace⟩ (some demoBody) with version := 7 }]
      ∧ (execute demoEnv
          ⟨some demoWorkspace, none, .create (some "policy") (some 7), ["body.json"]⟩).stdout
          = "id=7c9e6679-7425-40de-944b-e07fc1f90ae7 type=policy " ++
            "workspaceId=3fa85f64-5717-4562-b3fc-2c963f66afa6 version=7\n") := by
  have hfile : demoEnv.readFile "body.json" = .ok "\x7b\"rule\":\"deny-all\"\x7d" := rfl
  have hdec : unmarshalBody demoEnv "\x7b\"rule\":\"deny-all\"\x7d" = .ok (some demoBody) :=
    rfl
  have hwsp : demoEnv.uuidParse ((some demoWorkspace).getD "") = .ok ⟨demoWorkspace⟩ := rfl
  refine ⟨?_, ?_⟩
  · have hok : (execute demoEnv
        ⟨some demoWorkspace, none, .create (some "policy") none, ["body.json"]⟩).status
        = .returned none := by decide
    obtain ⟨path, ty, data, body, wsID, hargs, hty, hread, hbody, hws, hemit, hprint, _⟩ :=
      create_emits_new_artifact demoEnv (some demoWorkspace) none (some "policy") none
        ["body.json"] hok
    cases hargs
    cases hty
    rw [hfile] at hread
    cases hread
    rw [hdec] at hbody
    cases hbody
    rw [hwsp] at hws
    cases hws
    exact ⟨hok, hemit, hprint _ rfl⟩
  · have hok : (execute demoEnv
        ⟨some demoWorkspace, none, .create (some "policy") (some 7), ["body.json"]⟩).status
        = .returned none := by decide
    obtain ⟨path, ty, data, body, wsID, hargs, hty, hread, hbody, hws, hemit, hprint, _⟩ :=
      create_emits_new_artifact demoEnv (some demoWorkspace) none (some "policy") (some 7)
        ["body.json"] hok
    cases hargs
    cases hty
    rw [hfile] at hread
    cases hread
    rw [hdec] at hbody
    cases hbody
    rw [hwsp] at hws
    cases hws
    exact ⟨hok, hemit, hprint _ rfl⟩

theorem create_outcome_decode_error (env : Env) (ws server : Option String) (ty : String)
    (v : Option Int) (path data : String) (e : GoError)
    (hread : env.readFile path = .ok data) (hbody : unmarshalBody env data = .error e) :
    execute env ⟨ws, server, .create (some ty) v, [path]⟩
      = ⟨[.ReadFile path, .UnmarshalBody data], "", .returned (some e)⟩ := by
  simp [execute, createRunE, hread, hbody]

theorem unmarshalBody_notAnObject (env : Env) (data : String)
    (h : notAnObject env data = true) : ∃ e, unmarshalBody env data = .error e := by
  unfold notAnObject at h
  unfold unmarshalBody
  cases hp : env.parseJSON data with
  | error err => exact ⟨err, rfl⟩
  | ok value =>
    rw [hp] at h
    cases value with
    | null => simp [JsonValue.kind] at h
    | bool b => exact ⟨_, rfl⟩
    | number lit => exact ⟨_, rfl⟩
    | string str => exact ⟨_, rfl⟩
    | array items => exact ⟨_, rfl⟩
    | object members => simp [JsonValue.kind] at h

/-- C10, refuted as stated: `big.json` holds the JSON object `{"big":1e999}` and the
workspace identifier is valid, yet the create command fails: the number does not fit a
`float64`, so `json.Unmarshal` returns an error. -/
theorem create_object_with_huge_number_fails :
    demoEnv.readFile "big.json" = .ok "\x7b\"big\":1e999\x7d"
    ∧ demoEnv.parseJSON "\x7b\"big\":1e999\x7d"
        = .ok (.object (.cons "big" (.number "1e999") .nil))
    ∧ demoEnv.uuidParse demoWorkspace = .ok ⟨demoWorkspace⟩
    ∧ (execute demoEnv
        ⟨some demoWorkspace, none, .create (some "policy") none, ["big.json"]⟩).status
        = .returned (some
            (.mk "json: cannot unmarshal number 1e999 into Go value of type float64"))
    ∧ (execute demoEnv
        ⟨some demoWorkspace, none, .create (some "policy") none, ["big.json"]⟩).status.isSuccess
        = false := by
  refine ⟨rfl, rfl, rfl, ?_, ?_⟩ <;> decide

/-- C10, amended: for a readable input file, (1) when its content is not valid JSON, or
its top-level value is an array, a string, a number or a boolean, the create command
returns the decode error after the calls `ReadFile` and `Unmarshal` only: the workspace
is not parsed, no artifact is built, nothing is printed; (2) when it holds a JSON object
whose number literals all fit a `float64`, and the workspace identifier parses, the
command returns nil and prints the artifact; (3) when it holds a JSON object with a
number literal that does not fit, the command returns the decode error. -/
theorem create_body_must_decode (env : Env) (ws server : Option String) (ty : String)
    (v : Option Int) (path data : String) (hread : env.readFile path = .ok data) :
    (notAnObject env data = true →
      ∃ e, unmarshalBody env data = .error e
        ∧ execute env ⟨ws, server, .create (some ty) v, [path]⟩
            = ⟨[.ReadFile path, .UnmarshalBody data], "", .returned (some e)⟩
        ∧ (execute env ⟨ws, server, .create (some ty) v, [path]⟩).calls.any Call.isUuidParse
            = false
        ∧ (execute env ⟨ws, server, .create (some ty) v, [path]⟩).calls.any Call.isNewArtifact
            = false
        ∧ emitted (execute env ⟨ws, server, .create (some ty) v, [path]⟩) = [])
    ∧ (∀ members wsID, env.parseJSON data = .ok (.object members) →
        members.badNumber env = none → env.uuidParse (ws.getD "") = .ok wsID →
        (execute env ⟨ws, server, .create (some ty) v, [path]⟩).status = .returned none
        ∧ emitted (execute env ⟨ws, server, .create (some ty) v, [path]⟩)
            = [{ env.newArtifact ty wsID (some members) with version := v.getD 1 }]
        ∧ (execute env ⟨ws, server, .create (some ty) v, [path]⟩).stdout
            = marshalOutput env
                { env.newArtifact ty wsID (some members) with version := v.getD 1 } ++ "\n")
    ∧ (∀ members lit, env.parseJSON data = .ok (.object members) →
        members.badNumber env = some lit →
        execute env ⟨ws, server, .create (some ty) v, [path]⟩
          = ⟨[.ReadFile path, .UnmarshalBody data], "",
              .returned (some (.mk ("json: cannot unmarshal number " ++ lit ++
                " into Go value of type float64")))⟩) := by
  refine ⟨?_, ?_, ?_⟩
  · intro hkind
    obtain ⟨e, he⟩ := unmarshalBody_notAnObject env data hkind
    refine ⟨e, he, ?_⟩
    rw [create_outcome_decode_error env ws server ty v path data e hread he]
    refine ⟨rfl, ?_, ?_, ?_⟩
    · simp [Call.isUuidParse]
    · simp [Call.isNewArtifact]
    · simp [emitted]
  · intro members wsID hp hnum hw
    have hb : unmarshalBody env data = .ok (some members) := by
      simp [unmarshalBody, hp, hnum]
    rw [create_outcome_ok env ws server ty v path data (some members) wsID hread hb hw]
    refine ⟨rfl, ?_, rfl⟩
    simp [emitted]
  · intro members lit hp hnum
    have hb : unmarshalBody env data
        = .error (.mk ("json: cannot unmarshal number " ++ lit ++
            " into Go value of type float64")) := by
      simp [unmarshalBody, hp, hnum]
    exact create_outcome_decode_error env ws server ty v path data _ hread hb

/-- C10, instance: `list.json` holds a JSON array and is refused before the workspace is
parsed; `body.json` holds a JSON object and is accepted. -/
theorem create_body_must_decode_witness :
    demoEnv.readFile "list.json" = .ok "[1,2]"
    ∧ notAnObject demoEnv "[1,2]" = true
    ∧ (∃ e, unmarshalBody demoEnv "[1,2]" = .error e
        ∧ execute demoEnv ⟨some demoWorkspace, none, .create (some "policy") none, ["list.json"]⟩
            = ⟨[.ReadFile "list.json", .UnmarshalBody "[1,2]"], "", .returned (some e)⟩
        ∧ (execute demoEnv
            ⟨some demoWorkspace, none, .create (some "policy") none, ["list.json"]⟩).calls.any
              Call.isUuidParse = false
        ∧ (execute demoEnv
            ⟨some demoWorkspace, none, .create (some "policy") none, ["list.json"]⟩).calls.any
              Call.isNewArtifact = false
        ∧ emitted (execute demoEnv
            ⟨some demoWorkspace, none, .create (some "policy") none, ["list.json"]⟩) = []) :=
  ⟨rfl, rfl,
    (create_body_must_decode demoEnv (some demoWorkspace) none "policy" none "list.json"
      "[1,2]" rfl).1 rfl⟩

/-! ## The sign command -/

/-- C8: when the artifact file cannot be read, or its content does not decode as an
artifact, the sign command returns that very error, prints nothing, and makes no
cryptographic call: neither `NewLocalSigner` nor `Sign` (nor `GetKeyID`). -/
theorem sign_fails_fast (env : Env) (ws server : Option String) (path : String)
    (e : GoError)
    (hbad : env.readFile path = .error e
      ∨ ∃ data, env.readFile path = .ok data ∧ env.unmarshalArtifact data = .error e) :
    (execute env ⟨ws, server, .sign, [path]⟩).status = .returned (some e)
    ∧ (execute env ⟨ws, server, .sign, [path]⟩).stdout = ""
    ∧ (execute env ⟨ws, server, .sign, [path]⟩).calls.any Call.isCrypto = false
    ∧ exitCode (execute env ⟨ws, server, .sign, [path]⟩) = 1 := by
  rcases hbad with hr | ⟨data, hr, hu⟩
  · simp [execute, signRunE, hr, Call.isCrypto, exitCode]
  · simp [execute, signRunE, hr, hu, Call.isCrypto, exitCode]

/-- C8, instance: `missing.json` cannot be read. -/
theorem sign_fails_fast_witness :
    demoEnv.readFile "missing.json"
        = .error (.mk "open missing.json: no such file or directory")
    ∧ (execute demoEnv ⟨none, none, .sign, ["missing.json"]⟩).status
        = .returned (some (.mk "open missing.json: no such file or directory"))
    ∧ (execute demoEnv ⟨none, none, .sign, ["missing.json"]⟩).stdout = ""
    ∧ (execute demoEnv ⟨none, none, .sign, ["missing.json"]⟩).calls.any Call.isCrypto = false
    ∧ exitCode (execute demoEnv ⟨none, none, .sign, ["missing.json"]⟩) = 1 :=
  ⟨rfl, sign_fails_fast demoEnv none none "missing.json" _ (Or.inl rfl)⟩

/-- C9: (1) if `NewLocalSigner` returns an error, the sign command prints nothing and
the process exits with code 1, and when the command got as far as asking for the signer
the error returned is that one; (2) if `Sign` returns an error, the command returns it,
prints nothing and the process exits with code 1; (3) whenever anything is printed, the
file was read and decoded, `NewLocalSigner` and `Sign` both succeeded, the command
returned nil, and the output is exactly the artifact id, token and key id lines. -/
theorem sign_key_failure_fatal (env : Env) (ws server : Option String)
    (args : List String) :
    (∀ e, env.newLocalSigner = .error e →
      exitCode (execute env ⟨ws, server, .sign, args⟩) = 1
      ∧ (execute env ⟨ws, server, .sign, args⟩).stdout = ""
      ∧ ∀ path data a, args = [path] → env.readFile path = .ok data →
          env.unmarshalArtifact data = .ok a →
          (execute env ⟨ws, server, .sign, args⟩).status = .returned (some e))
    ∧ (∀ path data a s e, args = [path] → env.readFile path = .ok data →
        env.unmarshalArtifact data = .ok a → env.newLocalSigner = .ok s →
        (env.sign s a).2 = .error e →
        (execute env ⟨ws, server, .sign, args⟩).status = .returned (some e)
        ∧ exitCode (execute env ⟨ws, server, .sign, args⟩) = 1
        ∧ (execute env ⟨ws, server, .sign, args⟩).stdout = "")
    ∧ ((execute env ⟨ws, server, .sign, args⟩).stdout ≠ "" →
        ∃ path data a s jws, args = [path] ∧ env.readFile path = .ok data
          ∧ env.unmarshalArtifact data = .ok a ∧ env.newLocalSigner = .ok s
          ∧ (env.sign s a).2 = .ok jws
          ∧ (execute env ⟨ws, server, .sign, args⟩).status = .returned none
          ∧ (execute env ⟨ws, server, .sign, args⟩).stdout
              = "Artifact ID: " ++ (env.sign s a).1.id.canonical ++ "\n" ++
                ("JWS: " ++ jws ++ "\n") ++ ("Key ID: " ++ env.getKeyID s ++ "\n")) := by
  by_cases hlen : args.length ≠ 1
  · refine ⟨?_, ?_, ?_⟩
    · intro e _
      refine ⟨by simp [execute, hlen, exitCode], by simp [execute, hlen], ?_⟩
      intro path data a hargs
      simp [hargs] at hlen
    · intro path data a s e hargs
      simp [hargs] at hlen
    · intro hout
      simp [execute, hlen] at hout
  · obtain ⟨path, rfl⟩ := create_args_singleton args hlen
    cases hr : env.readFile path with
    | error err =>
      refine ⟨?_, ?_, ?_⟩
      · intro e _
        refine ⟨by simp [execute, signRunE, hr, exitCode], by simp [execute, signRunE, hr], ?_⟩
        intro path' data a hargs hread
        simp only [List.cons.injEq, and_true] at hargs
        subst hargs
        rw [hr] at hread
        cases hread
      · intro path' data a s e hargs hread
        simp only [List.cons.injEq, and_true] at hargs
        subst hargs
        rw [hr] at hread
        cases hread
      · intro hout
        simp [execute, signRunE, hr] at hout
    | ok data =>
      cases hu : env.unmarshalArtifact data with
      | error err =>
        refine ⟨?_, ?_, ?_⟩
        · intro e _
          refine ⟨by simp [execute, signRunE, hr, hu, exitCode],
            by simp [execute, signRunE, hr, hu], ?_⟩
          intro path' data' a hargs hread hdec
          simp only [List.cons.injEq, and_true] at hargs
          subst hargs
          rw [hr] at hread
          cases hread
          rw [hu] at hdec
          cases hdec
        · intro path' data' a s e hargs hread hdec
          simp only [List.cons.injEq, and_true] at hargs
          subst hargs
          rw [hr] at hread
          cases hread
          rw [hu] at hdec
          cases hdec
        · intro hout
          simp [execute, signRunE, hr, hu] at hout
      | ok a =>
        cases hn : env.newLocalSigner with
        | error err =>
          refine ⟨?_, ?_, ?_⟩
          · intro e he
            cases he
            refine ⟨by simp [execute, signRunE, hr, hu, hn, exitCode],
              by simp [execute, signRunE, hr, hu, hn], ?_⟩
            intro path' data' a' _ _ _
            simp [execute, signRunE, hr, hu, hn]
          · intro path' data' a' s e _ _ _ hs
            cases hs
          · intro hout
            simp [execute, signRunE, hr, hu, hn] at hout
        | ok s =>
          cases hs : env.sign s a with
          | mk signed res =>
            cases res with
            | error err =>
              refine ⟨?_, ?_, ?_⟩
              · intro e he
                cases he
              · intro path' data' a' s' e hargs hread hdec hsig hfail
                simp only [List.cons.injEq, and_true] at hargs
                subst hargs
                rw [hr] at hread
                cases hread
                rw [hu] at hdec
                cases hdec
                cases hsig
                rw [hs] at hfail
                cases hfail
                simp [execute, signRunE, hr, hu, hn, hs, exitCode]
              · intro hout
                simp [execute, signRunE, hr, hu, hn, hs] at hout
            | ok jws =>
              refine ⟨?_, ?_, ?_⟩
              · intro e he
                cases he
              · intro path' data' a' s' e hargs hread hdec hsig hfail
                simp only [List.cons.injEq, and_true] at hargs
                subst hargs
                rw [hr] at hread
                cases hread
                rw [hu] at hdec
                cases hdec
                cases hsig
                rw [hs] at hfail
                cases hfail
              · intro _
                refine ⟨path, data, a, s, jws, rfl, hr, hu, rfl, ?_, ?_, ?_⟩
                · rw [hs]
                · simp [execute, signRunE, hr, hu, hn, hs]
                · simp [execute, signRunE, hr, hu, hn, hs]

/-- C9, instance: with no key material, `sign artifact.json` prints nothing and the
process exits with code 1; with a failing `Sign`, likewise. -/
theorem sign_key_failure_fatal_witness :
    noKeyEnv.newLocalSigner = .error (.mk "signing unavailable")
    ∧ exitCode (execute noKeyEnv ⟨none, none, .sign, ["artifact.json"]⟩) = 1
    ∧ (execute noKeyEnv ⟨none, none, .sign, ["artifact.json"]⟩).stdout = ""
    ∧ (execute noKeyEnv ⟨none, none, .sign, ["artifact.json"]⟩).status
        = .returned (some (.mk "signing unavailable"))
    ∧ (execute badSignEnv ⟨none, none, .sign, ["artifact.json"]⟩).status
        = .returned (some (.mk "signing failed"))
    ∧ (execute badSignEnv ⟨none, none, .sign, ["artifact.json"]⟩).stdout = "" :=
  have h := (sign_key_failure_fatal noKeyEnv none none ["artifact.json"]).1
    (.mk "signing unavailable") rfl
  have h2 := (sign_key_failure_fatal badSignEnv none none ["artifact.json"]).2.1
    "artifact.json" "artifact A" demoArtifact ⟨1⟩ (.mk "signing failed") rfl rfl rfl rfl rfl
  ⟨rfl, h.1, h.2.1, h.2.2 "artifact.json" "artifact A" demoArtifact rfl rfl rfl,
    h2.1, h2.2.2⟩

end FedMCP
